import Mathlib

/-!
Verification development for `neurosynth/analysis/classify.py`.

The Python module is shallowly embedded below: the pure list manipulations
of `get_studies_by_regions` become Lean list functions, the configuration
dispatch of `regularize`, `Classifier.__init__` and
`Classifier.cross_val_fit` become `Except`-returning functions, and the
calls into the external machine-learning library (fitting, fold scoring)
are taken as oracle parameters, since the library is not part of this
repository.
-/

namespace Neurosynth

/-! ## Overlap filter and label assembler (`get_studies_by_regions`, lines 63-88) -/

section Overlap

variable {α : Type} [DecidableEq α]

/-- Embedding of the `remove_overlap` branch acting on `grouped_ids`:
`flat_ids = [id for (id, count) in Counter(flat_ids).items() if count == 1]`
followed by `grouped_ids = [[x for x in m if x in flat_ids] for m in grouped_ids]`.
Membership of `x` in the surviving `flat_ids` is exactly `count x = 1` in the
flattened concatenation, so each group is filtered by that predicate. -/
def removeOverlap (gs : List (List α)) : List (List α) :=
  gs.map (fun m => m.filter (fun x => gs.flatten.count x == 1))

/-- Number of input groups that contain `a` (used to state the claim about
ids that appear in two or more groups). -/
def inTwoOrMoreGroups (gs : List (List α)) (a : α) : Bool :=
  decide (2 ≤ gs.countP (fun g => decide (a ∈ g)))

/-- Embedding of the label assembly
`y = [[idx] * len(ids) for (idx, ids) in enumerate(grouped_ids)]` flattened. -/
def labelsOf (gs : List (List α)) : List Nat :=
  (gs.enum.map (fun p => List.replicate p.2.length p.1)).flatten

/-- Labels produced by `get_studies_by_regions` on the `remove_overlap=True`
path: assembled from the filtered groups. -/
def gsbrLabels (gs : List (List α)) : List Nat :=
  labelsOf (removeOverlap gs)

/-- A list of key/count pairs is an admissible result of
`Counter(flat).items()` in CPython 2: the keys are exactly the distinct
elements of `flat`, each paired with its multiplicity, in an order the dict
contract leaves unspecified (hash-table order). -/
def IsCounterItems (flat : List α) (items : List (α × Nat)) : Prop :=
  (items.map Prod.fst).Nodup ∧
  (∀ p ∈ items, p.1 ∈ flat ∧ p.2 = flat.count p.1) ∧
  (∀ a ∈ flat, a ∈ items.map Prod.fst)

instance (flat : List α) (items : List (α × Nat)) :
    Decidable (IsCounterItems flat items) := by
  unfold IsCounterItems; infer_instance

/-- Flat id list produced on the `remove_overlap=True` path:
`flat_ids = [id for (id, count) in Counter(flat_ids).items() if count == 1]`,
taking the `Counter.items()` enumeration as a parameter. -/
def gsbrFlatIds (items : List (α × Nat)) : List α :=
  (items.filter (fun p => p.2 == 1)).map Prod.fst

/-- Index of the (first) group containing `a`. -/
def groupIdx (gs : List (List α)) (a : α) : Nat :=
  gs.findIdx (fun g => decide (a ∈ g))

end Overlap

/-! ## Mask loading (`get_studies_by_regions`, lines 52-57) -/

/-- Exception classes relevant to the mask-loading block. In Python 2,
`IOError` is not a subclass of `OSError`; `nibabel` raises `IOError` or its
own `ImageFileError` on an unreadable path. -/
inductive PyExc where
  | osError
  | ioError
  | imageFileError
  | nameError
  | attributeError
  deriving DecidableEq

/-- Embedding of
`try: loaded_masks = [nib.load(os.path.relpath(m)) for m in masks]`
`except OSError: print 'Error loading masks. Check the path'`.
The argument is the outcome of the comprehension (the loaded masks, coded as
opaque tags, or the exception the image library raised). A caught `OSError`
is only printed and execution falls through; `loaded_masks` is then unbound,
so the next statement (`grouped_ids = [... for m in loaded_masks]`) raises
`NameError`. Every other exception class propagates unchanged. -/
def maskLoadPhase (tryResult : Except PyExc (List Nat)) : Except PyExc (List Nat) :=
  match tryResult with
  | .ok ms => .ok ms
  | .error e => if e = .osError then .error .nameError else .error e

/-! ## Regularizer (`regularize`, lines 14-19, applied at lines 89-92)

`preprocessing.scale(X, with_mean=False)` divides every column by its
population standard deviation; a zero standard deviation is replaced by 1
(sklearn `_handle_zeros_in_scale`), leaving constant columns untouched.
Matrices are `Fin m → Fin n → ℝ` (rows = studies, columns = features), so a
transformed matrix has the same shape by typing. -/

/-- Column mean (over the `m` rows) of column `j`. -/
noncomputable def colMean {m n : ℕ} (X : Fin m → Fin n → ℝ) (j : Fin n) : ℝ :=
  (∑ i, X i j) / m

/-- Population variance of column `j` (`np.std` squared, `ddof=0`). -/
noncomputable def colVar {m n : ℕ} (X : Fin m → Fin n → ℝ) (j : Fin n) : ℝ :=
  (∑ i, (X i j - colMean X j) ^ 2) / m

/-- Population standard deviation of column `j`. -/
noncomputable def colStd {m n : ℕ} (X : Fin m → Fin n → ℝ) (j : Fin n) : ℝ :=
  Real.sqrt (colVar X j)

/-- sklearn `_handle_zeros_in_scale`: a zero scale factor becomes 1. -/
noncomputable def handleZeros (s : ℝ) : ℝ :=
  if s = 0 then 1 else s

/-- `preprocessing.scale(X, with_mean=False)`: column-wise division by the
(zero-corrected) standard deviation, no mean subtraction. -/
noncomputable def scaleNoMean {m n : ℕ} (X : Fin m → Fin n → ℝ) :
    Fin m → Fin n → ℝ :=
  fun i j => X i j / handleZeros (colStd X j)

/-- Embedding of `regularize(X, method)`: only `'scale'` is recognized; any
other value (including `None`) raises
`Exception('Unrecognized regularization method')`. -/
noncomputable def regularize {m n : ℕ} (X : Fin m → Fin n → ℝ)
    (method : Option String) : Except String (Fin m → Fin n → ℝ) :=
  if method = some "scale" then .ok (scaleNoMean X)
  else .error "Unrecognized regularization method"

/-- Embedding of the call site `if regularization: X = regularize(X, method=regularization)`
in `get_studies_by_regions`: a falsy value (`None` or the empty string)
leaves X unchanged; otherwise `regularize` runs. -/
noncomputable def applyRegularization {m n : ℕ} (regularization : Option String)
    (X : Fin m → Fin n → ℝ) : Except String (Fin m → Fin n → ℝ) :=
  match regularization with
  | none => .ok X
  | some s => if s = "" then .ok X else regularize X (some s)

/-! ## Classifier wrapper (`class Classifier`, lines 185-281)

The external estimators are modeled by tagged values; fitting and scoring
are calls into scikit-learn, so they enter the model as oracle parameters.
Scores are modeled as rationals (Python floats). -/

/-- The estimator configurations `Classifier.__init__` can produce, plus a
caller-supplied external estimator (`isLinearSVC` records the
`isinstance(clf, LinearSVC)` test). -/
inductive EstKind where
  | svc (classWeight : Option String)
  | extraTrees
  | gbc
  | dummy
  | externalEst (isLinearSVC : Bool) (tag : Nat)
  deriving DecidableEq

/-- An estimator object: its configuration, whether it has been fit, and its
`random_state` attribute. -/
structure Est where
  kind : EstKind
  fitted : Bool
  randomState : Option Int
  deriving DecidableEq

/-- Whether the estimator is a `LinearSVC` instance. -/
def Est.isLinearSVCEst (e : Est) : Bool :=
  match e.kind with
  | .externalEst b _ => b
  | _ => false

/-- A fold generator: `cross_validation.StratifiedKFold(y, k, indices=False)`
or a caller-supplied generator object (opaque tag). -/
inductive FoldGen where
  | stratifiedKFold (y : List Nat) (k : Nat) (indices : Bool)
  | custom (tag : Nat)
  deriving DecidableEq

/-- The `cross_val` argument: either a string (`isinstance(cross_val,
basestring)`) or any non-string object, used directly as the generator. -/
inductive CrossValArg where
  | str (s : String)
  | gen (g : FoldGen)
  deriving DecidableEq

/-- State of a `GridSearchCV` wrapper: the wrapped estimator, the installed
`cv` and `scoring` parameters, whether/how often it has been fit, and
`best_score_`. -/
structure GridState where
  inner : Est
  paramGridTag : Nat
  cv : Option FoldGen
  scoring : Option String
  fitted : Bool
  fitCount : Nat
  best : Option ℚ

/-- `self.clf`: either a bare estimator or a `GridSearchCV` wrapper. -/
inductive Clf where
  | plain (e : Est)
  | grid (g : GridState)

/-- The mutable attributes of a `Classifier` instance that the claims
mention: `self.clf`, `self.X`, `self.y`. -/
structure ClassifierState (χ : Type) where
  clf : Clf
  lastX : Option χ
  lastY : Option (List Nat)

/-- Embedding of `Classifier.__init__`: a supplied estimator is used
directly (re-randomizing `random_state` when it is a `LinearSVC`, with
`rand` standing for `random.randint(0, 200)`); otherwise one of the four
named presets is constructed, and an unrecognized `clf_method` raises
`Exception('Unrecognized classification method')`. -/
def baseEstimator (clf_method : String) (classifier : Option Est)
    (class_weight : Option String) (rand : Int) : Except String Est :=
  match classifier with
  | some c =>
      .ok (if c.isLinearSVCEst then { c with randomState := some rand } else c)
  | none =>
      if clf_method = "SVM" then .ok ⟨.svc class_weight, false, none⟩
      else if clf_method = "ERF" then .ok ⟨.extraTrees, false, some 0⟩
      else if clf_method = "GBC" then .ok ⟨.gbc, false, none⟩
      else if clf_method = "Dummy" then .ok ⟨.dummy, false, none⟩
      else .error "Unrecognized classification method"

/-- The whole of `Classifier.__init__`: the base estimator selection above,
then the optional `GridSearchCV` wrap. -/
def buildClassifier (clf_method : String) (classifier : Option Est)
    (class_weight : Option String) (param_grid : Option Nat) (rand : Int) :
    Except String Clf :=
  match baseEstimator clf_method classifier class_weight rand with
  | .error e => .error e
  | .ok b =>
      match param_grid with
      | some pg => .ok (.grid ⟨b, pg, none, none, false, 0, none⟩)
      | none => .ok (.plain b)

/-- Resolution of the `cross_val` argument inside `cross_val_fit`:
`'4-Fold'` and `'3-Fold'` map to `StratifiedKFold(self.y, k, indices=False)`
with `k = 4` and `k = 3`; any other string raises
`Exception('Unrecognized cross validation method')`; a non-string is used
directly as `self.cver`. -/
def resolveCrossVal (y : List Nat) : CrossValArg → Except String FoldGen
  | .str s =>
      if s = "4-Fold" then .ok (.stratifiedKFold y 4 false)
      else if s = "3-Fold" then .ok (.stratifiedKFold y 3 false)
      else .error "Unrecognized cross validation method"
  | .gen g => .ok g

/-- `np.mean` of a score list, as returned by `self.cvs.mean()`. -/
def listMean (l : List ℚ) : ℚ :=
  l.sum / l.length

/-- Embedding of `Classifier.cross_val_fit(X, y, cross_val, scoring)`.
After resolving the fold generator, a `GridSearchCV` estimator receives the
generator and scoring metric through `set_params`, is fit once (the oracle
`gridBest` supplies the resulting `best_score_`, a scalar whose `.mean()` is
itself), and the best score is returned. A bare estimator is not fit:
`cross_validation.cross_val_score` (oracle `cvScore`, which clones the
estimator internally) computes the per-fold scores, whose mean is
returned. -/
def cross_val_fit {χ : Type} (st : ClassifierState χ) (X : χ) (y : List Nat)
    (cross_val : CrossValArg) (scoring : String)
    (gridBest : FoldGen → String → χ → List Nat → ℚ)
    (cvScore : Est → FoldGen → String → χ → List Nat → List ℚ) :
    Except String (ClassifierState χ × ℚ) :=
  match resolveCrossVal y cross_val with
  | .error e => .error e
  | .ok cver =>
      match st.clf with
      | .grid g =>
          let b := gridBest cver scoring X y
          .ok (⟨.grid { g with cv := some cver, scoring := some scoring,
                               fitted := true, fitCount := g.fitCount + 1,
                               best := some b }, some X, some y⟩, b)
      | .plain e =>
          .ok (⟨.plain e, some X, some y⟩, listMean (cvScore e cver scoring X y))

/-- `Classifier.fit`: fits the wrapped estimator in place. -/
def fitClf : Clf → Clf
  | .plain e => .plain { e with fitted := true }
  | .grid g => .grid { g with fitted := true, fitCount := g.fitCount + 1 }

/-- The `clf.fit(X, y).score(X, y)` branch of `classify` (no cross
validation); `fitScore` is the scikit-learn scoring oracle. -/
def fitAndScore {χ : Type} (st : ClassifierState χ) (X : χ) (y : List Nat)
    (fitScore : Clf → χ → List Nat → ℚ) :
    Except String (ClassifierState χ × ℚ) :=
  let c := fitClf st.clf
  .ok (⟨c, some X, some y⟩, fitScore c X y)

/-- The fit-or-cross-validate step of `classify` (`if cross_val: ... else ...`;
a falsy `cross_val` is `none`). -/
def fitPhase {χ : Type} (st : ClassifierState χ) (X : χ) (y : List Nat)
    (cross_val : Option CrossValArg) (scoring : String)
    (gridBest : FoldGen → String → χ → List Nat → ℚ)
    (cvScore : Est → FoldGen → String → χ → List Nat → List ℚ)
    (fitScore : Clf → χ → List Nat → ℚ) :
    Except String (ClassifierState χ × ℚ) :=
  match cross_val with
  | some cva => cross_val_fit st X y cva scoring gridBest cvScore
  | none => fitAndScore st X y fitScore

/-- `dict(Counter(y))`: a finite map from each class label occurring in `y`
to its multiplicity, modeled as an association list over the distinct
labels. -/
def counterDict (y : List Nat) : List (Nat × Nat) :=
  y.dedup.map (fun c => (c, y.count c))

/-- The possible non-`None` results of `classify`, selected by `output`. -/
inductive ClassifyOut (χ : Type) where
  | summary (score : ℚ) (n : List (Nat × Nat))
  | summaryClf (score : ℚ) (n : List (Nat × Nat)) (c : ClassifierState χ)
  | clfOnly (c : ClassifierState χ)

/-- Embedding of `classify(X, y, method, classifier, output, cross_val,
class_weight, regularization, param_grid, scoring)`: builds the wrapper,
fits or cross-validates, and shapes the result by `output` (any
unrecognized value falls through to `pass`, i.e. `None`). -/
def classify {χ : Type} (X : χ) (y : List Nat) (method : String)
    (classifier : Option Est) (output : String)
    (cross_val : Option CrossValArg) (class_weight : Option String)
    (param_grid : Option Nat) (scoring : String) (rand : Int)
    (gridBest : FoldGen → String → χ → List Nat → ℚ)
    (cvScore : Est → FoldGen → String → χ → List Nat → List ℚ)
    (fitScore : Clf → χ → List Nat → ℚ) :
    Except String (Option (ClassifyOut χ)) :=
  match buildClassifier method classifier class_weight param_grid rand with
  | .error e => .error e
  | .ok clf0 =>
      match fitPhase ⟨clf0, none, none⟩ X y cross_val scoring gridBest cvScore fitScore with
      | .error e => .error e
      | .ok (st1, score) =>
          .ok (if output = "summary" then some (.summary score (counterDict y))
               else if output = "summary_clf" then
                 some (.summaryClf score (counterDict y) st1)
               else if output = "clf" then some (.clfOnly st1)
               else none)

/-! ## Study-id normalization (`get_studies_by_regions`, lines 82-84)

`if not False in [i.isdigit() for i in flat_ids]: flat_ids = [int(s) for s in flat_ids]`.
A study id is a string or an integer; `.isdigit()` exists only on strings,
so an integer id raises `AttributeError` inside the comprehension. -/

/-- A Python study id: a string or an integer. -/
inductive PyId where
  | str (s : String)
  | int (n : Int)
  deriving DecidableEq

/-- Python `str.isdigit` (ASCII): true iff the string is nonempty and every
character is a digit. -/
def pyIsDigit (s : String) : Bool :=
  !s.data.isEmpty && s.data.all Char.isDigit

/-- The digit flag of an id, total version (used to state results; an
integer id never reaches this point in a successful run). -/
def pyDigitFlag : PyId → Bool
  | .str s => pyIsDigit s
  | .int _ => false

/-- `i.isdigit()` on a study id: an integer has no such attribute. -/
def isdigitOf : PyId → Except String Bool
  | .str s => .ok (pyIsDigit s)
  | .int _ => .error "AttributeError: int object has no attribute isdigit"

/-- The comprehension `[i.isdigit() for i in flat_ids]`, evaluated left to
right, stopping at the first raised exception. -/
def isdigitList : List PyId → Except String (List Bool)
  | [] => .ok []
  | i :: rest =>
      match isdigitOf i with
      | .error e => .error e
      | .ok b =>
          match isdigitList rest with
          | .error e => .error e
          | .ok bs => .ok (b :: bs)

/-- Python `int(s)` on a digit string: its decimal value. -/
def pyInt (s : String) : Int :=
  s.data.foldl (fun n c => 10 * n + ((c.toNat : Int) - 48)) 0

/-- `int(s)` applied to an id (only reached when every flag is true, hence
on string ids). -/
def intOfId : PyId → PyId
  | .str s => .int (pyInt s)
  | .int n => .int n

/-- The integer-normalization step: compute all digit flags (which can
raise), then convert every id iff no flag is `False`. -/
def normalizeIds (ids : List PyId) : Except String (List PyId) :=
  match isdigitList ids with
  | .error e => .error e
  | .ok flags => if false ∈ flags then .ok ids else .ok (ids.map intOfId)

/-- The tail of `get_studies_by_regions` around the feature-matrix build:
normalization runs first, then `dataset.get_feature_data(ids=flat_ids, ...)`
(the oracle `getFeatureData`) produces X. -/
def featurePhase {χ : Type} (ids : List PyId) (getFeatureData : List PyId → χ) :
    Except String χ :=
  match normalizeIds ids with
  | .error e => .error e
  | .ok ids2 => .ok (getFeatureData ids2)

/-! ## Theorems: overlap filter and label assembler -/

section OverlapTheorems

variable {α : Type} [DecidableEq α]

lemma two_le_count_join (gs : List (List α)) (i j : Nat)
    (hij : i < j) (hi : i < gs.length) (hj : j < gs.length) (a : α)
    (hai : a ∈ gs.get ⟨i, hi⟩) (haj : a ∈ gs.get ⟨j, hj⟩) :
    2 ≤ gs.flatten.count a := by
  have hitake : i < (gs.take j).length := by
    simpa [List.length_take, Nat.lt_min] using And.intro hij hi
  have h1 : a ∈ (gs.take j).flatten := by
    refine List.mem_flatten.mpr ⟨(gs.take j).get ⟨i, hitake⟩, List.get_mem _ _ _, ?_⟩
    simpa [List.get_take] using hai
  have hjdrop : 0 < (gs.drop j).length := by
    simpa [List.length_drop] using hj
  have h2 : a ∈ (gs.drop j).flatten := by
    refine List.mem_flatten.mpr ⟨(gs.drop j).get ⟨0, hjdrop⟩, List.get_mem _ _ _, ?_⟩
    simpa [List.get_drop] using haj
  have c1 : 1 ≤ (gs.take j).flatten.count a := List.count_pos_iff.mpr h1
  have c2 : 1 ≤ (gs.drop j).flatten.count a := List.count_pos_iff.mpr h2
  calc 2 ≤ (gs.take j).flatten.count a + (gs.drop j).flatten.count a := by omega
    _ = ((gs.take j).flatten ++ (gs.drop j).flatten).count a := (List.count_append _ _ _).symm
    _ = (gs.take j ++ gs.drop j).flatten.count a := by rw [List.flatten_append]
    _ = gs.flatten.count a := by rw [List.take_append_drop]

lemma mem_removeOverlap_join (gs : List (List α)) (a : α) :
    a ∈ (removeOverlap gs).flatten ↔ a ∈ gs.flatten ∧ ¬ 2 ≤ gs.flatten.count a := by
  constructor
  · intro h
    rcases List.mem_flatten.mp h with ⟨l, hl, hal⟩
    rcases List.mem_map.mp hl with ⟨m, hm, rfl⟩
    rcases List.mem_filter.mp hal with ⟨ham, hc⟩
    have hc1 : gs.flatten.count a = 1 := by simpa using hc
    exact ⟨List.mem_flatten.mpr ⟨m, hm, ham⟩, by omega⟩
  · rintro ⟨hmem, h2⟩
    have hpos : 0 < gs.flatten.count a := List.count_pos_iff.mpr hmem
    have hc1 : gs.flatten.count a = 1 := by omega
    rcases List.mem_flatten.mp hmem with ⟨m, hm, ham⟩
    refine List.mem_flatten.mpr ⟨m.filter (fun x => gs.flatten.count x == 1), ?_, ?_⟩
    · exact List.mem_map.mpr ⟨m, hm, rfl⟩
    · exact List.mem_filter.mpr ⟨ham, by simpa using hc1⟩

/-- C1 (counterexample): the claim as stated fails on a group list with a
duplicated id inside a single group. With input `[[0, 0]]` the id `0` lives
in only one input group, so the claim would keep it, but the code removes
every id whose total multiplicity in the concatenation is at least 2, so the
output union is empty. -/
theorem overlap_union_claim_fails :
    (0 : Nat) ∈ ([[0, 0]] : List (List Nat)).flatten ∧
    inTwoOrMoreGroups ([[0, 0]] : List (List Nat)) 0 = false ∧
    (0 : Nat) ∉ (removeOverlap ([[0, 0]] : List (List Nat))).flatten := by
  decide

/-- C1 (amended): for every nonempty sequence of per-mask study-id groups,
with `remove_overlap=True` the resulting groups are pairwise disjoint, their
union is the union of the input groups minus every id occurring more than
once in the concatenation of the input groups (in particular every id that
appears in two or more groups, but also an id duplicated within a single
group), and each group keeps its surviving ids in their original order
(each output group is a sublist of the corresponding input group). -/
theorem overlap_removal_spec (gs : List (List α)) (hne : gs ≠ []) :
    (removeOverlap gs).length = gs.length ∧
    List.Pairwise (fun g1 g2 => ∀ a, a ∈ g1 → a ∉ g2) (removeOverlap gs) ∧
    (∀ a, a ∈ (removeOverlap gs).flatten ↔
      a ∈ gs.flatten ∧ ¬ 2 ≤ gs.flatten.count a) ∧
    (∀ i (h1 : i < (removeOverlap gs).length) (h2 : i < gs.length),
      ((removeOverlap gs).get ⟨i, h1⟩).Sublist (gs.get ⟨i, h2⟩)) := by
  refine ⟨by simp [removeOverlap], ?_, mem_removeOverlap_join gs, ?_⟩
  · rw [List.pairwise_iff_get]
    rintro ⟨i, hi⟩ ⟨j, hj⟩ hij a ha1 ha2
    simp only [removeOverlap, List.length_map] at hi hj
    have e1 : (removeOverlap gs).get ⟨i, by simpa [removeOverlap] using hi⟩
        = (gs.get ⟨i, hi⟩).filter (fun x => gs.flatten.count x == 1) := by
      simp [removeOverlap]
    have e2 : (removeOverlap gs).get ⟨j, by simpa [removeOverlap] using hj⟩
        = (gs.get ⟨j, hj⟩).filter (fun x => gs.flatten.count x == 1) := by
      simp [removeOverlap]
    rw [e1] at ha1
    rw [e2] at ha2
    rcases List.mem_filter.mp ha1 with ⟨hmi, hc⟩
    rcases List.mem_filter.mp ha2 with ⟨hmj, _⟩
    have hc1 : gs.flatten.count a = 1 := by simpa using hc
    have := two_le_count_join gs i j hij hi hj a hmi hmj
    omega
  · intro i h1 h2
    have e1 : (removeOverlap gs).get ⟨i, h1⟩
        = (gs.get ⟨i, h2⟩).filter (fun x => gs.flatten.count x == 1) := by
      simp [removeOverlap]
    rw [e1]
    exact List.filter_sublist _

/-- C1 (witness): the amended theorem instantiated on the concrete groups
`[[1, 2], [3, 2]]`, where id 2 overlaps both groups and is removed. -/
theorem overlap_removal_spec_witness :
    ([[1, 2], [3, 2]] : List (List Nat)) ≠ [] ∧
    ((removeOverlap ([[1, 2], [3, 2]] : List (List Nat))).length
        = ([[1, 2], [3, 2]] : List (List Nat)).length ∧
    List.Pairwise (fun g1 g2 => ∀ a, a ∈ g1 → a ∉ g2)
        (removeOverlap ([[1, 2], [3, 2]] : List (List Nat))) ∧
    (∀ a, a ∈ (removeOverlap ([[1, 2], [3, 2]] : List (List Nat))).flatten ↔
      a ∈ ([[1, 2], [3, 2]] : List (List Nat)).flatten ∧
        ¬ 2 ≤ ([[1, 2], [3, 2]] : List (List Nat)).flatten.count a) ∧
    (∀ i (h1 : i < (removeOverlap ([[1, 2], [3, 2]] : List (List Nat))).length)
        (h2 : i < ([[1, 2], [3, 2]] : List (List Nat)).length),
      ((removeOverlap ([[1, 2], [3, 2]] : List (List Nat))).get ⟨i, h1⟩).Sublist
        (([[1, 2], [3, 2]] : List (List Nat)).get ⟨i, h2⟩))) :=
  ⟨by decide, overlap_removal_spec ([[1, 2], [3, 2]] : List (List Nat)) (by decide)⟩

/-- C2 (code bug): on the `remove_overlap=True` path the code rebuilds
`flat_ids` from `Counter(flat_ids).items()`, whose order is the dict hash
order, while `y` is assembled in group order. For groups `[[1], [0]]` (ids
supplied as small ints, for which CPython 2 dict iteration yields key order
`0, 1`), the admissible enumeration `[(0, 1), (1, 1)]` produces
`flat_ids = [0, 1]` but `y = [0, 1]`: the 0th flat id belongs to group 1
while `y[0] = 0`, so the rows of X are not aligned with y, although the
lengths still agree. -/
theorem label_vector_misaligned :
    IsCounterItems (([[1], [0]] : List (List Nat)).flatten) [(0, 1), (1, 1)] ∧
    gsbrFlatIds [(0, 1), (1, 1)] = ([0, 1] : List Nat) ∧
    gsbrLabels ([[1], [0]] : List (List Nat)) = [0, 1] ∧
    (gsbrLabels ([[1], [0]] : List (List Nat))).length
      = (gsbrFlatIds [(0, 1), (1, 1)] : List Nat).length ∧
    groupIdx ([[1], [0]] : List (List Nat))
      ((gsbrFlatIds [(0, 1), (1, 1)] : List Nat).getD 0 99) = 1 ∧
    (gsbrLabels ([[1], [0]] : List (List Nat))).getD 0 99 = 0 := by
  decide

end OverlapTheorems

/-! ## Theorems: mask loading -/

/-- C3 (code defect; the spec states the intent): when the image library
raises `OSError` on an invalid or unreadable mask path, the handler in
`get_studies_by_regions` swallows it — it only prints a message — and
execution continues past mask loading until the unbound `loaded_masks`
raises `NameError`; the I/O error is not propagated. (An `IOError`, a
distinct class in Python 2, is not caught by `except OSError` and does
propagate.) -/
theorem mask_oserror_swallowed :
    maskLoadPhase (.error .osError) = .error .nameError ∧
    maskLoadPhase (.error .osError) ≠ .error .osError ∧
    maskLoadPhase (.error .ioError) = .error .ioError := by
  refine ⟨rfl, ?_, rfl⟩
  intro h
  simp [maskLoadPhase] at h

/-! ## Theorems: configuration errors -/

/-- C4: every unrecognized configuration name fails immediately with a
descriptive error and no silent default: `regularize` for any method other
than `'scale'` (including `None`), `Classifier.__init__` without a supplied
estimator for any `clf_method` outside SVM/ERF/GBC/Dummy, and
`cross_val_fit` for any string other than `'4-Fold'`/`'3-Fold'`. -/
theorem config_errors_raise :
    (∀ {m n : ℕ} (X : Fin m → Fin n → ℝ) (method : Option String),
      method ≠ some "scale" →
      regularize X method = .error "Unrecognized regularization method") ∧
    (∀ (cm : String) (cw : Option String) (pg : Option Nat) (rand : Int),
      cm ≠ "SVM" → cm ≠ "ERF" → cm ≠ "GBC" → cm ≠ "Dummy" →
      buildClassifier cm none cw pg rand
        = .error "Unrecognized classification method") ∧
    (∀ (y : List Nat) (s : String), s ≠ "4-Fold" → s ≠ "3-Fold" →
      resolveCrossVal y (.str s)
        = .error "Unrecognized cross validation method") := by
  refine ⟨?_, ?_, ?_⟩
  · intro m n X method h
    simp [regularize, h]
  · intro cm cw pg rand h1 h2 h3 h4
    simp [buildClassifier, baseEstimator, h1, h2, h3, h4]
  · intro y s h1 h2
    simp [resolveCrossVal, h1, h2]

/-- C4 (witness): concrete unrecognized names for all three dispatches. -/
theorem config_errors_raise_witness :
    regularize (fun (_ : Fin 1) (_ : Fin 1) => (0 : ℝ)) none
      = .error "Unrecognized regularization method" ∧
    buildClassifier "XYZ" none none none 0
      = .error "Unrecognized classification method" ∧
    resolveCrossVal [] (.str "5-Fold")
      = .error "Unrecognized cross validation method" :=
  ⟨config_errors_raise.1 (fun _ _ => (0 : ℝ)) none (by simp),
   config_errors_raise.2.1 "XYZ" none none 0
     (by decide) (by decide) (by decide) (by decide),
   config_errors_raise.2.2 [] "5-Fold" (by decide) (by decide)⟩

/-! ## Theorems: regularizer -/

lemma colVar_nonneg {m n : ℕ} (X : Fin m → Fin n → ℝ) (j : Fin n) :
    0 ≤ colVar X j := by
  unfold colVar
  apply div_nonneg
  · exact Finset.sum_nonneg fun i _ => sq_nonneg _
  · exact Nat.cast_nonneg m

lemma handleZeros_ne_zero (s : ℝ) : handleZeros s ≠ 0 := by
  unfold handleZeros
  split
  · norm_num
  · assumption

lemma colVar_col_div {m n : ℕ} (X Y : Fin m → Fin n → ℝ) (j : Fin n) (c : ℝ)
    (h : ∀ i, Y i j = X i j / c) :
    colVar Y j = colVar X j / c ^ 2 := by
  have hmean : colMean Y j = colMean X j / c := by
    unfold colMean
    rw [Finset.sum_congr rfl fun i _ => h i, ← Finset.sum_div, div_right_comm]
  unfold colVar
  rw [hmean]
  have hterm : ∀ i : Fin m, (Y i j - colMean X j / c) ^ 2
      = (X i j - colMean X j) ^ 2 / c ^ 2 := fun i => by
    rw [h i, div_sub_div_same, div_pow]
  rw [Finset.sum_congr rfl fun i _ => hterm i, ← Finset.sum_div, div_right_comm]

lemma scaleNoMean_unitVar {m n : ℕ} (X : Fin m → Fin n → ℝ) (j : Fin n)
    (h : colVar X j ≠ 0) : colVar (scaleNoMean X) j = 1 := by
  have hv : 0 < colVar X j := lt_of_le_of_ne (colVar_nonneg X j) (Ne.symm h)
  have hs : colStd X j ≠ 0 := by
    unfold colStd
    exact ne_of_gt (Real.sqrt_pos.mpr hv)
  have hhz : handleZeros (colStd X j) = colStd X j := by
    unfold handleZeros
    rw [if_neg hs]
  have hdiv : ∀ i, scaleNoMean X i j = X i j / colStd X j := fun i => by
    unfold scaleNoMean
    rw [hhz]
  rw [colVar_col_div X (scaleNoMean X) j (colStd X j) hdiv]
  have hsq : colStd X j ^ 2 = colVar X j := Real.sq_sqrt (colVar_nonneg X j)
  rw [hsq, div_self h]

/-- C5: the regularization step of `get_studies_by_regions` is the identity
for a falsy method (`None` or the empty string); method `'scale'` applies
`scaleNoMean`, which multiplies each column by a nonzero constant (no
mean-centering) and gives every column of nonzero variance unit variance;
the shape `Fin m → Fin n` is preserved by construction. -/
theorem regularization_spec {m n : ℕ} (X : Fin m → Fin n → ℝ) :
    applyRegularization none X = .ok X ∧
    applyRegularization (some "") X = .ok X ∧
    applyRegularization (some "scale") X = .ok (scaleNoMean X) ∧
    (∃ c : Fin n → ℝ, (∀ j, c j ≠ 0) ∧ ∀ i j, scaleNoMean X i j = X i j * c j) ∧
    (∀ j, colVar X j ≠ 0 → colVar (scaleNoMean X) j = 1) := by
  refine ⟨rfl, rfl, ?_, ?_, fun j hj => scaleNoMean_unitVar X j hj⟩
  · simp [applyRegularization, regularize]
  · refine ⟨fun j => (handleZeros (colStd X j))⁻¹,
      fun j => inv_ne_zero (handleZeros_ne_zero _), fun i j => ?_⟩
    unfold scaleNoMean
    rw [div_eq_mul_inv]

/-- A concrete 2-by-1 design matrix whose single column has variance 1. -/
def xWitness : Fin 2 → Fin 1 → ℝ :=
  fun i _ => if i = 0 then 0 else 2

/-- C5 (witness): on `xWitness`, the column variance is nonzero and scaling
produces unit variance. -/
theorem regularization_spec_witness :
    colVar xWitness 0 ≠ 0 ∧ colVar (scaleNoMean xWitness) 0 = 1 := by
  have h1 : colVar xWitness 0 = 1 := by
    unfold colVar colMean xWitness
    rw [Fin.sum_univ_two, Fin.sum_univ_two]
    norm_num
  exact ⟨by rw [h1]; norm_num,
    (regularization_spec xWitness).2.2.2.2 0 (by rw [h1]; norm_num)⟩

/-! ## Theorems: cross-validation resolution -/

/-- C6: the `cross_val` argument of `cross_val_fit` resolves as follows:
the string `'4-Fold'` yields stratified k-fold over `y` with `k = 4`,
`'3-Fold'` yields `k = 3`, and any non-string value is used directly as the
caller-supplied fold generator. -/
theorem cross_val_resolution (y : List Nat) :
    resolveCrossVal y (.str "4-Fold") = .ok (.stratifiedKFold y 4 false) ∧
    resolveCrossVal y (.str "3-Fold") = .ok (.stratifiedKFold y 3 false) ∧
    (∀ g : FoldGen, resolveCrossVal y (.gen g) = .ok g) :=
  ⟨rfl, rfl, fun _ => rfl⟩

/-! ## Theorems: cross-validated fitting -/

/-- C7: once the fold generator resolves, `cross_val_fit` on a grid-search
estimator installs the generator and scoring metric into it, fits it exactly
once, and returns `best_score_` (a scalar, whose `.mean()` is itself); on a
bare estimator it computes the per-fold scores with the chosen metric and
returns their mean, leaving the estimator untouched. -/
theorem cross_val_fit_spec {χ : Type} (st : ClassifierState χ) (X : χ)
    (y : List Nat) (cva : CrossValArg) (scoring : String)
    (gridBest : FoldGen → String → χ → List Nat → ℚ)
    (cvScore : Est → FoldGen → String → χ → List Nat → List ℚ)
    (cver : FoldGen) (hres : resolveCrossVal y cva = .ok cver) :
    (∀ g, st.clf = .grid g →
      cross_val_fit st X y cva scoring gridBest cvScore =
        .ok (⟨.grid ⟨g.inner, g.paramGridTag, some cver, some scoring, true,
                     g.fitCount + 1, some (gridBest cver scoring X y)⟩,
              some X, some y⟩, gridBest cver scoring X y)) ∧
    (∀ e, st.clf = .plain e →
      cross_val_fit st X y cva scoring gridBest cvScore =
        .ok (⟨.plain e, some X, some y⟩,
             listMean (cvScore e cver scoring X y))) := by
  constructor
  · intro g hg
    unfold cross_val_fit
    rw [hres, hg]
  · intro e he
    unfold cross_val_fit
    rw [hres, he]

/-- C7 (witness): a bare `Dummy` estimator cross-validated with `'4-Fold'`
and an empty score oracle. -/
theorem cross_val_fit_spec_witness :
    cross_val_fit (χ := Unit) ⟨.plain ⟨.dummy, false, none⟩, none, none⟩ ()
        [0, 1] (.str "4-Fold") "accuracy"
        (fun _ _ _ _ => 0) (fun _ _ _ _ _ => [])
      = .ok (⟨.plain ⟨.dummy, false, none⟩, some (), some [0, 1]⟩,
             listMean ([] : List ℚ)) :=
  (cross_val_fit_spec ⟨.plain ⟨.dummy, false, none⟩, none, none⟩ () [0, 1]
      (.str "4-Fold") "accuracy" (fun _ _ _ _ => 0) (fun _ _ _ _ _ => [])
      (.stratifiedKFold [0, 1] 4 false) rfl).2 ⟨.dummy, false, none⟩ rfl

lemma baseEstimator_fresh_unfit (cm : String) (cw : Option String)
    (rand : Int) (e0 : Est)
    (h : baseEstimator cm none cw rand = .ok e0) : e0.fitted = false := by
  unfold baseEstimator at h
  split_ifs at h <;> simp_all <;> rw [← h]

lemma buildClassifier_plain (cm : String) (classifier : Option Est)
    (cw : Option String) (rand : Int) (e0 : Est)
    (h : buildClassifier cm classifier cw none rand = .ok (.plain e0)) :
    baseEstimator cm classifier cw rand = .ok e0 := by
  unfold buildClassifier at h
  cases hb : baseEstimator cm classifier cw rand with
  | error e => rw [hb] at h; exact absurd h (by simp)
  | ok b => rw [hb] at h; simp_all

/-- C8: `classify` with `output='clf'`, a cross-validation setting, and no
parameter grid returns the wrapper whose `clf` attribute is exactly the
estimator built at construction — the non-grid branch of `cross_val_fit`
scores clones and never fits it — and, when no external estimator was
supplied, that estimator is unfit. -/
theorem clf_output_estimator_unchanged {χ : Type} (X : χ) (y : List Nat)
    (method : String) (classifier : Option Est) (cw : Option String)
    (scoring : String) (rand : Int) (cva : CrossValArg)
    (gridBest : FoldGen → String → χ → List Nat → ℚ)
    (cvScore : Est → FoldGen → String → χ → List Nat → List ℚ)
    (fitScore : Clf → χ → List Nat → ℚ)
    (e0 : Est) (cver : FoldGen)
    (hbuild : buildClassifier method classifier cw none rand = .ok (.plain e0))
    (hres : resolveCrossVal y cva = .ok cver) :
    classify X y method classifier "clf" (some cva) cw none scoring rand
        gridBest cvScore fitScore
      = .ok (some (.clfOnly ⟨.plain e0, some X, some y⟩)) ∧
    (classifier = none → e0.fitted = false) := by
  constructor
  · simp [classify, fitPhase, cross_val_fit, hbuild, hres]
  · intro hcl
    subst hcl
    exact baseEstimator_fresh_unfit method cw rand e0
      (buildClassifier_plain method none cw rand e0 hbuild)

/-- C8 (witness): a fresh `Dummy` classifier cross-validated with a
caller-supplied generator; the returned wrapper holds the unfit estimator. -/
theorem clf_output_estimator_unchanged_witness :
    classify (χ := Unit) () [0, 1] "Dummy" none "clf" (some (.gen (.custom 7)))
        none none "accuracy" 0
        (fun _ _ _ _ => 0) (fun _ _ _ _ _ => []) (fun _ _ _ => 0)
      = .ok (some (.clfOnly ⟨.plain ⟨.dummy, false, none⟩, some (), some [0, 1]⟩)) ∧
    ((none : Option Est) = none → Est.fitted ⟨.dummy, false, none⟩ = false) :=
  clf_output_estimator_unchanged () [0, 1] "Dummy" none none "accuracy" 0
    (.gen (.custom 7)) (fun _ _ _ _ => 0) (fun _ _ _ _ _ => []) (fun _ _ _ => 0)
    ⟨.dummy, false, none⟩ (.custom 7) rfl rfl

/-! ## Theorems: result shapes of `classify` -/

lemma lookup_map_count (y : List Nat) (l : List Nat) (hl : l.Nodup) (c : Nat) :
    (l.map (fun a => (a, y.count a))).lookup c
      = if c ∈ l then some (y.count c) else none := by
  induction l with
  | nil => simp
  | cons a t ih =>
      rcases List.nodup_cons.mp hl with ⟨_, ht⟩
      by_cases hca : c = a
      · subst hca
        simp [List.lookup]
      · have hba : (c == a) = false := beq_eq_false_iff_ne.mpr hca
        simp [List.lookup, hba, ih ht, hca]

lemma lookup_counterDict (y : List Nat) (c : Nat) :
    (counterDict y).lookup c = if c ∈ y then some (y.count c) else none := by
  unfold counterDict
  rw [lookup_map_count y y.dedup y.nodup_dedup c]
  simp [List.mem_dedup]

/-- C9: given the constructed wrapper and a successful fit phase producing
state `st1` and score `score`, `classify` produces exactly one of four
result shapes selected by `output`: `'summary'` gives the score plus the
label-to-count map, `'summary_clf'` additionally carries the wrapper,
`'clf'` gives the wrapper alone, and any other value gives `None`; the `n`
component maps each class label occurring in `y` to its count. -/
theorem classify_output_shapes {χ : Type} (X : χ) (y : List Nat)
    (method : String) (classifier : Option Est) (cw : Option String)
    (cross_val : Option CrossValArg) (param_grid : Option Nat)
    (scoring : String) (rand : Int)
    (gridBest : FoldGen → String → χ → List Nat → ℚ)
    (cvScore : Est → FoldGen → String → χ → List Nat → List ℚ)
    (fitScore : Clf → χ → List Nat → ℚ)
    (clf0 : Clf) (st1 : ClassifierState χ) (score : ℚ)
    (hbuild : buildClassifier method classifier cw param_grid rand = .ok clf0)
    (hfit : fitPhase ⟨clf0, none, none⟩ X y cross_val scoring gridBest cvScore
        fitScore = .ok (st1, score)) :
    classify X y method classifier "summary" cross_val cw param_grid scoring
        rand gridBest cvScore fitScore
      = .ok (some (.summary score (counterDict y))) ∧
    classify X y method classifier "summary_clf" cross_val cw param_grid
        scoring rand gridBest cvScore fitScore
      = .ok (some (.summaryClf score (counterDict y) st1)) ∧
    classify X y method classifier "clf" cross_val cw param_grid scoring rand
        gridBest cvScore fitScore
      = .ok (some (.clfOnly st1)) ∧
    (∀ output, output ≠ "summary" → output ≠ "summary_clf" → output ≠ "clf" →
      classify X y method classifier output cross_val cw param_grid scoring
          rand gridBest cvScore fitScore
        = .ok none) ∧
    (∀ c, (counterDict y).lookup c
      = if c ∈ y then some (y.count c) else none) := by
  refine ⟨?_, ?_, ?_, ?_, fun c => lookup_counterDict y c⟩
  · simp [classify, hbuild, hfit]
  · simp [classify, hbuild, hfit]
  · simp [classify, hbuild, hfit]
  · intro output h1 h2 h3
    simp [classify, hbuild, hfit, h1, h2, h3]

/-- C9 (witness): a fresh `Dummy` classifier fit without cross-validation on
`y = [0, 0, 1]`, with a constant scoring oracle. -/
theorem classify_output_shapes_witness :
    classify (χ := Unit) () [0, 0, 1] "Dummy" none "summary" none none none
        "accuracy" 0 (fun _ _ _ _ => 0) (fun _ _ _ _ _ => []) (fun _ _ _ => 1)
      = .ok (some (.summary 1 (counterDict [0, 0, 1]))) ∧
    classify (χ := Unit) () [0, 0, 1] "Dummy" none "summary_clf" none none none
        "accuracy" 0 (fun _ _ _ _ => 0) (fun _ _ _ _ _ => []) (fun _ _ _ => 1)
      = .ok (some (.summaryClf 1 (counterDict [0, 0, 1])
          ⟨.plain ⟨.dummy, true, none⟩, some (), some [0, 0, 1]⟩)) ∧
    classify (χ := Unit) () [0, 0, 1] "Dummy" none "clf" none none none
        "accuracy" 0 (fun _ _ _ _ => 0) (fun _ _ _ _ _ => []) (fun _ _ _ => 1)
      = .ok (some (.clfOnly ⟨.plain ⟨.dummy, true, none⟩, some (), some [0, 0, 1]⟩)) ∧
    (∀ output, output ≠ "summary" → output ≠ "summary_clf" → output ≠ "clf" →
      classify (χ := Unit) () [0, 0, 1] "Dummy" none output none none none
          "accuracy" 0 (fun _ _ _ _ => 0) (fun _ _ _ _ _ => []) (fun _ _ _ => 1)
        = .ok none) ∧
    (∀ c, (counterDict [0, 0, 1]).lookup c
      = if c ∈ [0, 0, 1] then some (List.count c [0, 0, 1]) else none) :=
  classify_output_shapes () [0, 0, 1] "Dummy" none none none none "accuracy" 0
    (fun _ _ _ _ => 0) (fun _ _ _ _ _ => []) (fun _ _ _ => 1)
    (.plain ⟨.dummy, false, none⟩)
    ⟨.plain ⟨.dummy, true, none⟩, some (), some [0, 0, 1]⟩ 1 rfl rfl

/-! ## Theorems: study-id normalization -/

lemma isdigitList_int_error (ids : List PyId) (h : ∃ n, PyId.int n ∈ ids) :
    ∃ e, isdigitList ids = .error e := by
  induction ids with
  | nil =>
      rcases h with ⟨n, hn⟩
      simp at hn
  | cons i rest ih =>
      rcases h with ⟨n, hn⟩
      rcases List.mem_cons.mp hn with h1 | h1
      · subst h1
        exact ⟨_, rfl⟩
      · cases i with
        | int m => exact ⟨_, rfl⟩
        | str s =>
            rcases ih ⟨n, h1⟩ with ⟨e, he⟩
            refine ⟨e, ?_⟩
            simp [isdigitList, isdigitOf, he]

lemma isdigitList_strings (ids : List PyId)
    (h : ∀ i ∈ ids, ∃ s, i = PyId.str s) :
    isdigitList ids = .ok (ids.map pyDigitFlag) := by
  induction ids with
  | nil => rfl
  | cons i rest ih =>
      rcases h i (List.mem_cons_self i rest) with ⟨s, rfl⟩
      have htail := ih (fun j hj => h j (List.mem_cons_of_mem _ hj))
      simp [isdigitList, isdigitOf, htail, pyDigitFlag]

/-- C10: the integer-normalization step of `get_studies_by_regions` requires
every flattened id to be a string: an integer id makes `i.isdigit()` raise
`AttributeError`, so the call fails before the feature matrix is built
(whatever the dataset oracle would return); when every id is a string, the
step succeeds and converts ids to integers exactly when every id is a
nonempty all-digit string. -/
theorem id_normalization_spec (ids : List PyId) :
    ((∃ n, PyId.int n ∈ ids) →
      ∃ e, normalizeIds ids = .error e ∧
        ∀ (χ : Type) (f : List PyId → χ), featurePhase ids f = .error e) ∧
    ((∀ i ∈ ids, ∃ s, i = PyId.str s) →
      normalizeIds ids
        = .ok (if ids.all pyDigitFlag then ids.map intOfId else ids)) := by
  constructor
  · intro h
    rcases isdigitList_int_error ids h with ⟨e, he⟩
    refine ⟨e, ?_, ?_⟩
    · simp [normalizeIds, he]
    · intro χ f
      simp [featurePhase, normalizeIds, he]
  · intro h
    by_cases hb : ids.all pyDigitFlag = true
    · have hf : false ∉ ids.map pyDigitFlag := by
        intro hmem
        rcases List.mem_map.mp hmem with ⟨i, hi, hfl⟩
        have := List.all_eq_true.mp hb i hi
        rw [this] at hfl
        exact Bool.noConfusion hfl
      simp [normalizeIds, isdigitList_strings ids h, hb, hf]
    · have hf : false ∈ ids.map pyDigitFlag := by
        rw [List.all_eq_true] at hb
        push_neg at hb
        rcases hb with ⟨i, hi, hfl⟩
        exact List.mem_map.mpr ⟨i, hi, (Bool.not_eq_true _).mp hfl⟩
      simp [normalizeIds, isdigitList_strings ids h, hb, hf]

/-- C10 (witness): an integer id aborts the phase; all-string digit ids are
converted to integers. -/
theorem id_normalization_spec_witness :
    ((∃ n, PyId.int n ∈ [PyId.str "12", PyId.int 3]) ∧
      ∃ e, normalizeIds [PyId.str "12", PyId.int 3] = .error e ∧
        ∀ (χ : Type) (f : List PyId → χ),
          featurePhase [PyId.str "12", PyId.int 3] f = .error e) ∧
    ((∀ i ∈ [PyId.str "12", PyId.str "34"], ∃ s, i = PyId.str s) ∧
      normalizeIds [PyId.str "12", PyId.str "34"]
        = .ok (if ([PyId.str "12", PyId.str "34"].all pyDigitFlag) then
            [PyId.str "12", PyId.str "34"].map intOfId
          else [PyId.str "12", PyId.str "34"])) := by
  have hstr : ∀ i ∈ [PyId.str "12", PyId.str "34"], ∃ s, i = PyId.str s := by
    intro i hi
    rcases List.mem_cons.mp hi with h | h
    · exact ⟨"12", h⟩
    · rcases List.mem_cons.mp h with h2 | h2
      · exact ⟨"34", h2⟩
      · simp at h2
  exact ⟨⟨⟨3, by decide⟩,
      (id_normalization_spec [PyId.str "12", PyId.int 3]).1 ⟨3, by decide⟩⟩,
    ⟨hstr, (id_normalization_spec [PyId.str "12", PyId.str "34"]).2 hstr⟩⟩

end Neurosynth
